import Mathlib

/-!
Verification development for the weather-grpc-service repository.

The Python sources are shallowly embedded:
  - MongoDB documents become association lists of string keys and dynamic
    values (`BDoc`); the dynamic value type `BVal` carries the numbers,
    strings and nulls that the code inspects at run time.
  - Real-valued clock readings and temperatures are modelled as integers;
    every comparison the code performs is order-theoretic, so the integer
    model preserves the control flow exactly.
  - Python `float(x)` and `int(x)` applied to a dynamic value become
    `pyFloatOf` and `pyIntOf`, returning `none` where CPython raises
    `TypeError` or `ValueError`; the numeric-literal parser `pyNumParse`
    models the integer-literal fragment of the CPython grammar, which is
    the only fragment any claim distinguishes.
  - External collaborators (MongoDB connectivity, the OpenWeatherMap HTTP
    API, the gRPC transport) enter as explicit outcome parameters
    (`Except` values), exactly at the points where the source wraps the
    corresponding calls in `try`/`except`.
  - A Python exception escaping a function is an `Except.error` (or the
    `GrpcOutcome.exn` outcome for an RPC handler); returning normally is
    `Except.ok`.
-/

deriving instance DecidableEq for Except

/-! ## Python string helpers -/

/-- ASCII whitespace recognised by `str.strip()` (restricted to the
characters that can occur in the inputs under study). -/
def isPySpace (c : Char) : Bool :=
  c == ' ' || c == '\t' || c == '\n' || c == '\r'

/-- Python `str.strip()`. -/
def pyStrip (s : String) : String :=
  String.mk (((s.data.dropWhile isPySpace).reverse.dropWhile isPySpace).reverse)

/-- Python `str.lower()` (ASCII). -/
def pyLower (s : String) : String :=
  String.mk (s.data.map Char.toLower)

/-- Python `str.upper()` (ASCII). -/
def pyUpper (s : String) : String :=
  String.mk (s.data.map Char.toUpper)

/-- Python `str.capitalize()`: first character upper-cased, the rest
lower-cased. -/
def pyCapitalize (s : String) : String :=
  match s.data with
  | [] => ""
  | c :: rest => String.mk (c.toUpper :: rest.map Char.toLower)

/-- Value of a non-empty all-digit character list. -/
def digitsVal (cs : List Char) : Option Nat :=
  if !cs.isEmpty && cs.all Char.isDigit then
    some (cs.foldl (fun a c => a * 10 + (c.toNat - 48)) 0)
  else none

/-- Numeric-literal parsing shared by the models of CPython `float(str)`
and `int(str)`: optional sign, then digits, with surrounding whitespace
allowed.  This is the integer-literal fragment of the grammars; CPython
`float(str)` additionally accepts fraction, exponent and infinity
forms, which this model omits.  No theorem below depends on the exact
boundary of the accepted class: every concrete string fed to this
parser is accepted by both grammars (such as `"100"`) or rejected by
both (such as `"x"`), and the staleness-agreement theorem quantifies
only over non-string `created_at` values. -/
def pyNumParse (s : String) : Option Int :=
  match (pyStrip s).data with
  | '-' :: rest => (digitsVal rest).map (fun n => -(n : Int))
  | '+' :: rest => (digitsVal rest).map (fun n => (n : Int))
  | cs => (digitsVal cs).map (fun n => (n : Int))

/-! ## Dynamic (BSON/Python) values and documents -/

/-- A dynamic value as stored in MongoDB and handled by the Python code:
a number (int/float, modelled as an integer), a string, or null/None. -/
inductive BVal where
  | num (t : Int)
  | str (s : String)
  | null
deriving DecidableEq

/-- A MongoDB document / Python dict: an association list from field
names to dynamic values.  Lookup takes the first binding, mirroring the
unique-key invariant of Python dicts. -/
abbrev BDoc := List (String × BVal)

/-- Python `doc.get(k)` returning `None` for a missing key, i.e. `none`. -/
def dget (d : BDoc) (k : String) : Option BVal :=
  (d.find? (fun p => decide (p.1 = k))).map Prod.snd

/-- Setting key `k` of a dict to `v` (the effect of `{**d, k: v}` on
lookups: any previous binding of `k` is overridden). -/
def dset (d : BDoc) (k : String) (v : BVal) : BDoc :=
  d.filter (fun p => !(decide (p.1 = k))) ++ [(k, v)]

/-- CPython `float(v)` on a dynamic value: numbers convert, strings go
through the numeric parser, `None` raises `TypeError` (hence `none`);
a non-numeric string raises `ValueError` (hence `none`). -/
def pyFloatOf : BVal → Option Int
  | .num t => some t
  | .str s => pyNumParse s
  | .null => none

/-- CPython `int(v)` on a dynamic value, same failure modes as above. -/
def pyIntOf : BVal → Option Int
  | .num t => some t
  | .str s => pyNumParse s
  | .null => none

/-- Assigning a dynamic value to a protobuf string field: only strings
are accepted, anything else raises `TypeError` (hence `none`). -/
def pyStrField : BVal → Option String
  | .str s => some s
  | _ => none

/-- Python truthiness of a dynamic value. -/
def pyTruthy : BVal → Bool
  | .num t => !(decide (t = 0))
  | .str s => !(decide (s = ""))
  | .null => false

/-! ## BSON comparison order used by MongoDB sorts

MongoDB orders null below numbers below strings; numbers compare by
value and strings lexicographically.  Comparison query operators such as
`$gte` with a numeric bound use type bracketing: they match numeric
values only. -/

def bsonLe : BVal → BVal → Bool
  | .null, _ => true
  | .num _, .null => false
  | .num a, .num b => decide (a ≤ b)
  | .num _, .str _ => true
  | .str _, .null => false
  | .str _, .num _ => false
  | .str a, .str b => decide (a ≤ b)

/-- The sort key `created_at` of a document; a missing field sorts like
null in MongoDB. -/
def createdVal (d : BDoc) : BVal :=
  (dget d "created_at").getD .null

/-- Document `a` may appear before document `b` in a sort on
`created_at` descending. -/
def docBefore (a b : BDoc) : Prop :=
  bsonLe (createdVal b) (createdVal a) = true

instance : DecidableRel docBefore :=
  fun _ _ => inferInstanceAs (Decidable (_ = true))

instance : IsTotal BDoc docBefore where
  total a b := by
    have h : ∀ x y : BVal, bsonLe x y = true ∨ bsonLe y x = true := by
      intro x y
      rcases x with t | s | _ <;> rcases y with u | v | _ <;> simp only [bsonLe] <;>
        first
        | exact Or.inl trivial
        | exact Or.inr trivial
        | skip
      · rcases Int.le_total t u with hle | hle
        · exact Or.inl (decide_eq_true hle)
        · exact Or.inr (decide_eq_true hle)
      · rcases le_total s v with hle | hle
        · exact Or.inl (decide_eq_true hle)
        · exact Or.inr (decide_eq_true hle)
    exact h (createdVal b) (createdVal a)

instance : IsTrans BDoc docBefore where
  trans a b c hab hbc := by
    have h : ∀ x y z : BVal, bsonLe x y = true → bsonLe y z = true → bsonLe x z = true := by
      intro x y z hxy hyz
      rcases x with t | s | _ <;> rcases y with u | v | _ <;> rcases z with w | r | _ <;>
        simp only [bsonLe, decide_eq_true_eq, Bool.false_eq_true] at hxy hyz ⊢ <;>
        exact le_trans hxy hyz
    exact h (createdVal c) (createdVal b) (createdVal a) hbc hab

/-- Sorting a list of documents by `created_at` descending, as MongoDB
does for `.sort("created_at", DESCENDING)`. -/
def sortDocsDesc (l : List BDoc) : List BDoc :=
  List.insertionSort docBefore l

/-! ## server/db.py -/

/-- `save_weather_record(cache_key, payload)` from `server/db.py`:
builds `{**payload, "cache_key": cache_key, "created_at": time.time()}`
(the `created_at` stamp is written last, so it overrides any field of
that name in the payload) and appends it to the collection.  `now` is
the server-side clock reading `time.time()` at insert time. -/
def save_weather_record (db : List BDoc) (cache_key : String) (payload : BDoc) (now : Int) :
    List BDoc :=
  db ++ [dset (dset payload "cache_key" (.str cache_key)) "created_at" (.num now)]

/-- One conjunct of a MongoDB filter as built by `get_weather_history`. -/
inductive MongoCond where
  | eqStr (field : String) (v : String)
  | geNum (field : String) (bound : Int)
deriving DecidableEq

/-- The query shape `{"$or": [...], field: {"$gte": bound}, ...}` built
by `get_weather_history`. -/
structure MongoQuery where
  orConds : List MongoCond
  andConds : List MongoCond

/-- Evaluation of one condition against a document.  `$gte` with a
numeric bound matches numeric values only (MongoDB type bracketing). -/
def evalCond (d : BDoc) : MongoCond → Bool
  | .eqStr f v => decide (dget d f = some (.str v))
  | .geNum f b =>
    match dget d f with
    | some (.num t) => decide (b ≤ t)
    | _ => false

def evalQuery (q : MongoQuery) (d : BDoc) : Bool :=
  q.orConds.any (evalCond d) && q.andConds.all (evalCond d)

/-- `get_weather_history(city, limit, hours)` from `server/db.py`:
normalizes the city, returns `[]` for an empty normalized key, otherwise
filters on the five-way `$or` (normalized `cache_key`, plus the legacy
raw-`city` matches on the original, capitalized, lower-cased and
upper-cased input), optionally bounded below on `created_at` when
`hours` is given, sorted by `created_at` descending, truncated to
`limit`. -/
def get_weather_history (db : List BDoc) (city : String) (limit : Nat) (hours : Option Int)
    (now : Int) : List BDoc :=
  let cache_key := pyLower (pyStrip city)
  if cache_key = "" then []
  else
    let q : MongoQuery :=
      { orConds := [.eqStr "cache_key" cache_key, .eqStr "city" city,
                    .eqStr "city" (pyCapitalize city), .eqStr "city" (pyLower city),
                    .eqStr "city" (pyUpper city)],
        andConds :=
          match hours with
          | none => []
          | some h => [.geNum "created_at" (now - h * 3600)] }
    (sortDocsDesc (db.filter (evalQuery q))).take limit

/-- `get_latest_weather_record(cache_key)` from `server/db.py`: the
single most recent document (by `created_at` descending) whose
`cache_key` equals the normalized key.  There is no empty-key guard in
the source: an empty or whitespace-only key is normalized to the empty
string and queried as such. -/
def get_latest_weather_record (db : List BDoc) (cache_key : String) : Option BDoc :=
  (sortDocsDesc
      (db.filter
        (fun d => decide (dget d "cache_key" = some (.str (pyLower (pyStrip cache_key))))))).head?

/-! ## Protobuf message shapes -/

structure WeatherResponse where
  city : String
  temperature_celsius : Int
  description : String
  humidity : Int
  wind_speed : Int
  timestamp : String
deriving DecidableEq

structure ForecastEntry where
  timestamp : String
  temperature_celsius : Int
  description : String
  humidity : Int
  wind_speed : Int
deriving DecidableEq

structure ForecastResponse where
  city : String
  entries : List ForecastEntry
deriving DecidableEq

/-! ## server/weather_server.py -/

inductive StatusCode where
  | UNAUTHENTICATED
  | PERMISSION_DENIED
  | INVALID_ARGUMENT
  | NOT_FOUND
  | UNAVAILABLE
deriving DecidableEq

/-- Outcome of an RPC handler: a normal return, a `context.abort`, or an
uncaught Python exception. -/
inductive GrpcOutcome (α : Type) where
  | ok (value : α)
  | abort (code : StatusCode) (details : String)
  | exn
deriving DecidableEq

/-- `dict(pairs).get(k)`: Python dict construction keeps the last
binding of a repeated key. -/
def dictGet (l : List (String × String)) (k : String) : Option String :=
  (l.reverse.find? (fun p => decide (p.1 = k))).map Prod.snd

/-- `validate_api_key_from_metadata` from `server/weather_server.py`:
aborts UNAUTHENTICATED when the `x-api-key` entry is missing or falsy
(empty), then PERMISSION_DENIED when it differs from the expected key.
Returns the abort taken, if any; `expected` is the configured
`GRPC_API_KEY`, which `get_expected_api_key` guarantees non-empty. -/
def validate_api_key_from_metadata (expected : String) (metadata : List (String × String)) :
    Option (StatusCode × String) :=
  let received := dictGet metadata "x-api-key"
  if received.getD "" = "" then some (.UNAUTHENTICATED, "Missing x-api-key")
  else if received ≠ some expected then some (.PERMISSION_DENIED, "Invalid x-api-key")
  else none

/-- Stand-in for `time.strftime("%Y-%m-%dT%H:%M:%SZ", time.gmtime())`:
an injective function of the clock reading; no claim inspects the
format. -/
def synthTs (now : Int) : String :=
  "ts:" ++ toString now

/-- `doc.get("city", city_fallback)` assigned to the protobuf `city`
string field. -/
def hydrateCity (doc : BDoc) (fallback : String) : Option String :=
  match dget doc "city" with
  | none => some fallback
  | some v => pyStrField v

/-- `float(doc.get("temperature_celsius", 0.0))`. -/
def hydrateTemp (doc : BDoc) : Option Int :=
  pyFloatOf ((dget doc "temperature_celsius").getD (.num 0))

/-- `doc.get("description", "n/a")` assigned to a protobuf string field. -/
def hydrateDesc (doc : BDoc) : Option String :=
  match dget doc "description" with
  | none => some "n/a"
  | some v => pyStrField v

/-- `int(doc.get("humidity", 0))`. -/
def hydrateHum (doc : BDoc) : Option Int :=
  pyIntOf ((dget doc "humidity").getD (.num 0))

/-- `float(doc.get("wind_speed", 0.0))`. -/
def hydrateWind (doc : BDoc) : Option Int :=
  pyFloatOf ((dget doc "wind_speed").getD (.num 0))

/-- `doc.get("timestamp") or time.strftime(...)` assigned to a protobuf
string field: a missing or falsy stored timestamp is replaced by a
synthesized current UTC timestamp. -/
def hydrateTs (doc : BDoc) (now : Int) : Option String :=
  match dget doc "timestamp" with
  | none => some (synthTs now)
  | some v => if pyTruthy v then pyStrField v else some (synthTs now)

/-- Construction of the `WeatherResponse` returned on a fresh cache hit
(lines 147-154 of `server/weather_server.py`).  `none` models a Python
exception raised by one of the field conversions. -/
def rehydrate (doc : BDoc) (fallback : String) (now : Int) : Option WeatherResponse :=
  match hydrateCity doc fallback, hydrateTemp doc, hydrateDesc doc, hydrateHum doc,
      hydrateWind doc, hydrateTs doc now with
  | some c, some t, some d, some h, some w, some ts =>
    some { city := c, temperature_celsius := t, description := d, humidity := h,
           wind_speed := w, timestamp := ts }
  | _, _, _, _, _, _ => none

/-- `get_cached_weather_if_fresh(cache_key, city_fallback)` from
`server/weather_server.py`.  The store lookup outcome is passed in
(`Except.error` models `get_latest_weather_record` raising, which the
source catches and maps to `None`).  The result is `Except.error` when
an uncaught exception escapes (a conversion failure while re-hydrating),
otherwise `Except.ok` of the optional cached response. -/
def get_cached_weather_if_fresh (lookup : Except Unit (Option BDoc)) (city_fallback : String)
    (now ttl : Int) : Except Unit (Option WeatherResponse) :=
  match lookup with
  | .error _ => .ok none
  | .ok none => .ok none
  | .ok (some doc) =>
    match dget doc "created_at" with
    | none => .ok none
    | some created_at =>
      match pyFloatOf created_at with
      | none => .ok none
      | some t =>
        if now - t > ttl then .ok none
        else
          match rehydrate doc city_fallback now with
          | none => .error ()
          | some r => .ok (some r)

/-- Failure modes of `fetch_weather_from_openweather`: `ValueError` for
a provider 404 (city not found), `RuntimeError` for missing provider
credentials, transport errors and other non-200 statuses. -/
inductive FetchErr where
  | valueErr (msg : String)
  | runtimeErr (msg : String)
deriving DecidableEq

structure OWMain where
  temp : Option Int
  humidity : Option Int
deriving DecidableEq

structure OWWeatherItem where
  description : Option String
deriving DecidableEq

structure OWWind where
  speed : Option Int
deriving DecidableEq

/-- One entry of the provider forecast `list`. -/
structure OWListItem where
  dt_txt : Option String
  main : Option OWMain
  weather : Option (List OWWeatherItem)
  wind : Option OWWind
deriving DecidableEq

structure OWCityObj where
  name : Option String
deriving DecidableEq

/-- JSON payload of the provider forecast endpoint. -/
structure OWForecastPayload where
  city : Option OWCityObj
  list : Option (List OWListItem)
deriving DecidableEq

/-- JSON payload of the provider current-weather endpoint. -/
structure OWCurrentPayload where
  name : Option String
  main : Option OWMain
  weather : Option (List OWWeatherItem)
  wind : Option OWWind
deriving DecidableEq

/-- Construction of the fresh `WeatherResponse` from the provider
payload (lines 197-216 of `server/weather_server.py`).  `none` models
the `TypeError` raised when a present first weather item has no
description (the current-weather path, unlike the forecast path, reads
`weather_list[0].get("description")` without a default). -/
def responseOfCurrent (data : OWCurrentPayload) (city_input : String) (now : Int) :
    Option WeatherResponse :=
  let name := match data.name with
    | none => city_input
    | some s => if s = "" then city_input else s
  let main := data.main.getD { temp := none, humidity := none }
  let weather_list := data.weather.getD []
  let wind := data.wind.getD { speed := none }
  let descOpt : Option String :=
    match weather_list with
    | [] => some "n/a"
    | w :: _ => w.description
  match descOpt with
  | none => none
  | some description =>
    some { city := name,
           temperature_celsius := main.temp.getD 0,
           description := description,
           humidity := main.humidity.getD 0,
           wind_speed := wind.speed.getD 0,
           timestamp := synthTs now }

/-- The payload dict the handler persists (lines 222-229). -/
def payloadOfResponse (r : WeatherResponse) : BDoc :=
  [("city", .str r.city), ("temperature_celsius", .num r.temperature_celsius),
   ("description", .str r.description), ("humidity", .num r.humidity),
   ("wind_speed", .num r.wind_speed), ("timestamp", .str r.timestamp)]

/-- `WeatherService.GetCurrentWeather` from `server/weather_server.py`.
External effects are parameters: `dbReadFails` is the cache lookup
raising, `fetch` the outcome of `fetch_weather_from_openweather`,
`saveFails` the persist raising (swallowed by the source).  A single
clock reading `now` stands for the per-statement `time.time()` calls.
Returns the RPC outcome together with the store contents after the
call. -/
def getCurrentWeather (expected : String) (metadata : List (String × String)) (cityArg : String)
    (db : List BDoc) (dbReadFails : Bool) (now ttl : Int)
    (fetch : Except FetchErr OWCurrentPayload) (saveFails : Bool) :
    GrpcOutcome WeatherResponse × List BDoc :=
  match validate_api_key_from_metadata expected metadata with
  | some (code, msg) => (.abort code msg, db)
  | none =>
    let city_input := pyStrip cityArg
    if city_input = "" then (.abort .INVALID_ARGUMENT "City name must not be empty", db)
    else
      let cache_key := pyLower city_input
      let lookup : Except Unit (Option BDoc) :=
        if dbReadFails then .error () else .ok (get_latest_weather_record db cache_key)
      match get_cached_weather_if_fresh lookup city_input now ttl with
      | .error _ => (.exn, db)
      | .ok (some cached) => (.ok cached, db)
      | .ok none =>
        match fetch with
        | .error (.valueErr msg) => (.abort .NOT_FOUND msg, db)
        | .error (.runtimeErr msg) => (.abort .UNAVAILABLE msg, db)
        | .ok data =>
          match responseOfCurrent data city_input now with
          | none => (.exn, db)
          | some response =>
            let db2 :=
              if saveFails then db
              else save_weather_record db cache_key (payloadOfResponse response) now
            (.ok response, db2)

/-- Extraction of one `ForecastEntry` from one provider list item
(lines 281-293 of `server/weather_server.py`); every missing sub-field
falls back to its documented default. -/
def forecastEntryOfItem (f : OWListItem) : ForecastEntry :=
  let main := f.main.getD { temp := none, humidity := none }
  let weather := f.weather.getD []
  let wind := f.wind.getD { speed := none }
  { timestamp := f.dt_txt.getD "",
    temperature_celsius := main.temp.getD 0,
    description :=
      match weather with
      | [] => "n/a"
      | w :: _ => w.description.getD "n/a",
    humidity := main.humidity.getD 0,
    wind_speed := wind.speed.getD 0 }

/-- `WeatherService.GetForecast` from `server/weather_server.py`.
`owApiKey` is the `OPENWEATHER_API_KEY` environment value, `http` the
outcome of the provider request (status code and decoded payload),
`steps` the configured `FORECAST_STEPS_3H`. -/
def getForecast (expected : String) (metadata : List (String × String)) (cityArg : String)
    (owApiKey : Option String) (http : Except Unit (Nat × OWForecastPayload)) (steps : Nat) :
    GrpcOutcome ForecastResponse :=
  match validate_api_key_from_metadata expected metadata with
  | some (code, msg) => .abort code msg
  | none =>
    let city_input := pyStrip cityArg
    if city_input = "" then .abort .INVALID_ARGUMENT "City name must not be empty"
    else if owApiKey.getD "" = "" then .abort .UNAVAILABLE "Missing OPENWEATHER_API_KEY"
    else
      match http with
      | .error _ => .abort .UNAVAILABLE "Error calling OpenWeatherMap"
      | .ok (status, data) =>
        if status = 404 then .abort .NOT_FOUND "City not found"
        else if status ≠ 200 then .abort .UNAVAILABLE "OpenWeatherMap API error"
        else
          let city_name :=
            match data.city with
            | none => city_input
            | some c => c.name.getD city_input
          let forecast_list := data.list.getD []
          .ok { city := city_name,
                entries := (forecast_list.take steps).map forecastEntryOfItem }

/-! ## api/app.py -/

/-- Result of the Flask route: a JSON body with an HTTP status. -/
inductive ApiResult where
  | okJson (city : String) (count : Nat) (hours : Option Int) (limit : Int) (data : List BDoc)
  | errJson (status : Nat) (msg : String)
deriving DecidableEq

/-- `_parse_int` from `api/app.py`: `None` raw yields the default,
otherwise CPython `int(raw)` with an optional lower bound;
`Except.error` models the `ValueError` raised on a malformed or
too-small value. -/
def parse_int_param (raw : Option String) (default : Option Int) (min_value : Option Int) :
    Except Unit (Option Int) :=
  match raw with
  | none => .ok default
  | some r =>
    match pyNumParse r with
    | none => .error ()
    | some v =>
      match min_value with
      | some m => if v < m then .error () else .ok (some v)
      | none => .ok (some v)

/-- The staleness decision of the `/api/weather` route (lines 141-156 of
`api/app.py`), applied to the latest-record list it fetched: refresh
when no record exists, when `created_at` is not an int/float
(`isinstance` check, so numeric strings count as invalid), or when the
age exceeds the TTL. -/
def route_needs_refresh (latest_list : List BDoc) (now ttl : Int) : Bool :=
  match latest_list with
  | [] => true
  | latest :: _ =>
    match dget latest "created_at" with
    | some (.num t) => decide (now - t > ttl)
    | _ => true

/-- The `GET /api/weather` handler from `api/app.py`.  The three
`get_weather_history` calls and the gRPC call are external effects
passed as outcomes: `read1` is the initial history read, `read2` the
unfiltered latest-record read (degraded to `[]` on error by the
source), `rpc` the `GetCurrentWeather` call (its error carries the gRPC
status-code name and details), `read3` the post-refresh re-read.  Error
message texts elide the interpolated exception details of the
f-strings. -/
def weather_history_route (cityRaw limitRaw hoursRaw : Option String) (ttl now : Int)
    (read1 read2 : Except Unit (List BDoc)) (rpc : Except (String × String) Unit)
    (read3 : Except Unit (List BDoc)) : ApiResult :=
  let city := pyStrip (cityRaw.getD "")
  if city = "" then .errJson 400 "Missing city query parameter"
  else
    match parse_int_param (some (limitRaw.getD "50")) (some 50) (some 1) with
    | .error _ => .errJson 400 "Invalid limit parameter"
    | .ok limitO =>
      match parse_int_param hoursRaw none (some 1) with
      | .error _ => .errJson 400 "Invalid hours parameter"
      | .ok hours =>
        let limit := limitO.getD 50
        match read1 with
        | .error _ => .errJson 500 "Database error"
        | .ok history =>
          let latest_list := match read2 with | .error _ => [] | .ok l => l
          if route_needs_refresh latest_list now ttl then
            match rpc with
            | .error (codeName, _) =>
              .errJson 502 ("gRPC error while fetching current weather: " ++ codeName)
            | .ok _ =>
              match read3 with
              | .error _ => .errJson 500 "Failed to fetch current weather via gRPC"
              | .ok h2 => .okJson city h2.length hours limit h2
          else .okJson city history.length hours limit history

/-! ## Definitions written from the wording of the spec and claims,
for comparison with the source translations above -/

/-- Modelled from the claim wording for C1: the freshness conditions of
the cache.  Returns the latest record when the lookup succeeded with a
record whose `created_at` is present and convertible to a number `t`
with `now - t ≤ ttl`; `none` in every other case. -/
def freshLatest (lookup : Except Unit (Option BDoc)) (now ttl : Int) : Option BDoc :=
  match lookup with
  | .ok (some doc) =>
    match dget doc "created_at" with
    | none => none
    | some created_at =>
      match pyFloatOf created_at with
      | none => none
      | some t => if now - t ≤ ttl then some doc else none
  | _ => none

/-! ## Helper lemmas -/

theorem dget_dset_self (d : BDoc) (k : String) (v : BVal) : dget (dset d k v) k = some v := by
  unfold dget dset
  induction d with
  | nil => simp
  | cons p rest ih =>
    by_cases h : p.1 = k
    · simp [List.filter_cons, h]
    · simp [List.filter_cons, List.find?_cons, h]

theorem dget_dset_ne (d : BDoc) (k k2 : String) (v : BVal) (h : k2 ≠ k) :
    dget (dset d k v) k2 = dget d k2 := by
  have hkk2 : ¬ (k = k2) := fun hc => h hc.symm
  unfold dget dset
  induction d with
  | nil =>
    rw [List.filter_nil, List.nil_append,
      List.find?_cons_of_neg _ (by simpa using hkk2), List.find?_nil]
  | cons p rest ih =>
    by_cases hp : p.1 = k
    · have hp2 : ¬ (p.1 = k2) := by rw [hp]; exact hkk2
      rw [List.filter_cons, if_neg (by simp [hp]),
        List.find?_cons_of_neg _ (by simpa using hp2)]
      exact ih
    · rw [List.filter_cons, if_pos (by simp [hp]), List.cons_append]
      by_cases hq : p.1 = k2
      · rw [List.find?_cons_of_pos _ (by simpa using hq),
          List.find?_cons_of_pos _ (by simpa using hq)]
      · rw [List.find?_cons_of_neg _ (by simpa using hq),
          List.find?_cons_of_neg _ (by simpa using hq)]
        exact ih

/-- Claim C1 (corrected): the claim asserts that `get_cached_weather_if_fresh`
returns a cached response exactly when a latest record exists with a
present, numeric-convertible `created_at` and `now - created_at <= TTL`,
and `None` in every other case.  On a fresh record the source also runs
the field conversions of lines 147-154, and a present non-convertible
field (for example a non-numeric `temperature_celsius` string) raises an
uncaught exception instead of producing a response.  The corrected
characterization: the result is exactly determined by the freshness
conditions (`freshLatest`, written from the claim wording) followed by
re-hydration, which is the only source of the escaping exception; in
every non-fresh case the result is `None` and no error escapes. -/
theorem C1_fresh_characterization (lookup : Except Unit (Option BDoc)) (fb : String)
    (now ttl : Int) :
    get_cached_weather_if_fresh lookup fb now ttl =
      match freshLatest lookup now ttl with
      | none => .ok none
      | some doc =>
        match rehydrate doc fb now with
        | none => .error ()
        | some r => .ok (some r) := by
  rcases lookup with e | o
  · rfl
  rcases o with _ | doc
  · rfl
  rcases hca : dget doc "created_at" with _ | ca
  · simp [get_cached_weather_if_fresh, freshLatest, hca]
  rcases hf : pyFloatOf ca with _ | t
  · simp [get_cached_weather_if_fresh, freshLatest, hca, hf]
  simp only [get_cached_weather_if_fresh, freshLatest, hca, hf]
  by_cases hage : now - t > ttl
  · rw [if_pos hage, if_neg (by omega : ¬ now - t ≤ ttl)]
  · rw [if_neg hage, if_pos (by omega : now - t ≤ ttl)]

/-- Claim C1, counterexample: a store state whose latest record is fresh
(created_at 100, now 150, TTL 300) but carries a non-numeric
`temperature_celsius` string makes the call raise (modelled as
`Except.error`) instead of returning the cached response that the claim
promises for every fresh record. -/
theorem C1_counterexample :
    get_cached_weather_if_fresh
        (.ok (some [("created_at", BVal.num 100), ("temperature_celsius", BVal.str "x")]))
        "atlantis" 150 300 = .error () ∧
      dget [("created_at", BVal.num 100), ("temperature_celsius", BVal.str "x")] "created_at" =
        some (.num 100) ∧
      (150 : Int) - 100 ≤ 300 := by
  refine ⟨by decide, by decide, by omega⟩

/-- Claim C3 (confirmed): the record persisted by `save_weather_record`
always carries `created_at` equal to the insert-time clock reading and
`cache_key` equal to the caller argument, for every payload — in
particular a caller-supplied `created_at` or `cache_key` field in the
payload never survives, because both stamps are written after the
payload is spread into the document. -/
theorem C3_insert_stamps (db : List BDoc) (cache_key : String) (payload : BDoc) (now : Int) :
    ∃ doc, save_weather_record db cache_key payload now = db ++ [doc] ∧
      dget doc "created_at" = some (.num now) ∧
      dget doc "cache_key" = some (.str cache_key) := by
  refine ⟨dset (dset payload "cache_key" (.str cache_key)) "created_at" (.num now), rfl, ?_, ?_⟩
  · exact dget_dset_self ..
  · rw [dget_dset_ne _ _ _ _ (by decide)]
    exact dget_dset_self ..

/-- Claim C4 (confirmed): a failing store lookup makes
`get_cached_weather_if_fresh` return the same verdict as a lookup that
found no record — `None` (refresh) — and the failure never escapes to
the caller (the result is a normal return, not an exception). -/
theorem C4_lookup_error_degrades (fb : String) (now ttl : Int) :
    get_cached_weather_if_fresh (.error ()) fb now ttl = .ok none ∧
    get_cached_weather_if_fresh (.error ()) fb now ttl =
      get_cached_weather_if_fresh (.ok none) fb now ttl :=
  ⟨rfl, rfl⟩

/-- Claim C2 (confirmed): for both RPC handlers, a missing or empty
`x-api-key` metadata entry aborts UNAUTHENTICATED; a present non-empty
entry different from the configured key aborts PERMISSION_DENIED; and
only with the correct credential does city validation run, so the
correct credential together with an empty-after-trimming city aborts
INVALID_ARGUMENT.  `expected` is non-empty because
`get_expected_api_key` fails closed on an unset `GRPC_API_KEY`. -/
theorem C2_auth_gate (expected cityArg : String) (metadata : List (String × String))
    (db : List BDoc) (dbReadFails : Bool) (now ttl : Int)
    (fetch : Except FetchErr OWCurrentPayload) (saveFails : Bool) (owApiKey : Option String)
    (http : Except Unit (Nat × OWForecastPayload)) (steps : Nat) (hexp : expected ≠ "") :
    ((dictGet metadata "x-api-key" = none ∨ dictGet metadata "x-api-key" = some "") →
      (getCurrentWeather expected metadata cityArg db dbReadFails now ttl fetch saveFails).1 =
          .abort .UNAUTHENTICATED "Missing x-api-key" ∧
        getForecast expected metadata cityArg owApiKey http steps =
          .abort .UNAUTHENTICATED "Missing x-api-key") ∧
    (∀ k, dictGet metadata "x-api-key" = some k → k ≠ "" → k ≠ expected →
      (getCurrentWeather expected metadata cityArg db dbReadFails now ttl fetch saveFails).1 =
          .abort .PERMISSION_DENIED "Invalid x-api-key" ∧
        getForecast expected metadata cityArg owApiKey http steps =
          .abort .PERMISSION_DENIED "Invalid x-api-key") ∧
    (dictGet metadata "x-api-key" = some expected → pyStrip cityArg = "" →
      (getCurrentWeather expected metadata cityArg db dbReadFails now ttl fetch saveFails).1 =
          .abort .INVALID_ARGUMENT "City name must not be empty" ∧
        getForecast expected metadata cityArg owApiKey http steps =
          .abort .INVALID_ARGUMENT "City name must not be empty") := by
  refine ⟨?_, ?_, ?_⟩
  · intro hmiss
    have hval : validate_api_key_from_metadata expected metadata =
        some (.UNAUTHENTICATED, "Missing x-api-key") := by
      unfold validate_api_key_from_metadata
      rcases hmiss with hm | hm <;> rw [hm] <;> rfl
    constructor
    · simp only [getCurrentWeather, hval]
    · simp only [getForecast, hval]
  · intro k hk hk0 hkne
    have hval : validate_api_key_from_metadata expected metadata =
        some (.PERMISSION_DENIED, "Invalid x-api-key") := by
      unfold validate_api_key_from_metadata
      rw [hk]
      rw [if_neg (by simpa using hk0), if_pos (by simpa using hkne)]
    constructor
    · simp only [getCurrentWeather, hval]
    · simp only [getForecast, hval]
  · intro hk hcity
    have hval : validate_api_key_from_metadata expected metadata = none := by
      unfold validate_api_key_from_metadata
      rw [hk]
      rw [if_neg (by simpa using hexp), if_neg (by simp)]
    constructor
    · simp only [getCurrentWeather, hval, hcity]
      rw [if_pos trivial]
    · simp only [getForecast, hval, hcity]
      rw [if_pos trivial]

/-- Claim C2, witness: concrete calls exercising each of the three
cases of the authentication gate. -/
theorem C2_auth_gate_witness :
    ("secret" : String) ≠ "" ∧
    ((getCurrentWeather "secret" [] "Bucharest" [] false 0 300
        (.error (.valueErr "City not found")) false).1 =
      .abort .UNAUTHENTICATED "Missing x-api-key") ∧
    ((getCurrentWeather "secret" [("x-api-key", "wrong")] "Bucharest" [] false 0 300
        (.error (.valueErr "City not found")) false).1 =
      .abort .PERMISSION_DENIED "Invalid x-api-key") ∧
    (getForecast "secret" [("x-api-key", "secret")] " " none (.error ()) 8 =
      .abort .INVALID_ARGUMENT "City name must not be empty") := by
  refine ⟨by decide, ?_, ?_, ?_⟩
  · exact ((C2_auth_gate "secret" "Bucharest" [] [] false 0 300
      (.error (.valueErr "City not found")) false none (.error ()) 8 (by decide)).1
      (Or.inl (by decide))).1
  · exact (((C2_auth_gate "secret" "Bucharest" [("x-api-key", "wrong")] [] false 0 300
      (.error (.valueErr "City not found")) false none (.error ()) 8 (by decide)).2.1)
      "wrong" (by decide) (by decide) (by decide)).1
  · exact ((C2_auth_gate "secret" " " [("x-api-key", "secret")] [] false 0 300
      (.error (.valueErr "City not found")) false none (.error ()) 8 (by decide)).2.2
      (by decide) (by decide)).2

/-- Claim C6 (confirmed): with a valid credential, a non-empty city, a
configured provider key and a 200 provider response, `GetForecast`
returns exactly `min steps n` entries (where `n` is the length of the
provider list and `steps` the configured step count), and entry `i` is
the field extraction of provider entry `i` — the prefix of the provider
list in its original order. -/
theorem C6_forecast_truncation (expected cityArg owKey : String)
    (metadata : List (String × String)) (payload : OWForecastPayload) (steps : Nat)
    (hmk : dictGet metadata "x-api-key" = some expected) (hexp : expected ≠ "")
    (hcity : pyStrip cityArg ≠ "") (hkey : owKey ≠ "") :
    ∃ cn, getForecast expected metadata cityArg (some owKey) (.ok (200, payload)) steps =
        .ok { city := cn,
              entries := ((payload.list.getD []).take steps).map forecastEntryOfItem } ∧
      (((payload.list.getD []).take steps).map forecastEntryOfItem).length =
        min steps (payload.list.getD []).length ∧
      ∀ i, i < min steps (payload.list.getD []).length →
        (((payload.list.getD []).take steps).map forecastEntryOfItem)[i]? =
          ((payload.list.getD [])[i]?).map forecastEntryOfItem := by
  have hval : validate_api_key_from_metadata expected metadata = none := by
    unfold validate_api_key_from_metadata
    rw [hmk]
    rw [if_neg (by simpa using hexp), if_neg (by simp)]
  refine ⟨(match payload.city with
            | none => pyStrip cityArg
            | some c => c.name.getD (pyStrip cityArg)), ?_, ?_, ?_⟩
  · simp only [getForecast, hval]
    rw [if_neg hcity, if_neg (by simpa using hkey)]
    rw [if_neg (by omega : ¬ (200 : Nat) = 404), if_neg (by simp)]
  · rw [List.length_map, List.length_take]
  · intro i hi
    rw [List.getElem?_map, List.getElem?_take, if_pos (by omega : i < steps)]

/-- Claim C6, witness: a provider list of two entries truncated to one
configured step. -/
theorem C6_forecast_truncation_witness :
    dictGet [("x-api-key", "k")] "x-api-key" = some "k" ∧ ("k" : String) ≠ "" ∧
    pyStrip "c" ≠ "" ∧ ("ow" : String) ≠ "" ∧
    (∃ cn,
      getForecast "k" [("x-api-key", "k")] "c" (some "ow")
          (.ok (200,
            { city := none,
              list := some [
                { dt_txt := some "t1", main := none, weather := none, wind := none },
                { dt_txt := some "t2", main := none, weather := none, wind := none }] }))
          1 =
        .ok { city := cn,
              entries :=
                ((((some [
                    { dt_txt := some "t1", main := none, weather := none, wind := none },
                    { dt_txt := some "t2", main := none, weather := none, wind := none }] :
                  Option (List OWListItem)).getD []).take 1).map forecastEntryOfItem) } ∧
      ((((some [
          { dt_txt := some "t1", main := none, weather := none, wind := none },
          { dt_txt := some "t2", main := none, weather := none, wind := none }] :
        Option (List OWListItem)).getD []).take 1).map forecastEntryOfItem).length =
        min 1 (((some [
          { dt_txt := some "t1", main := none, weather := none, wind := none },
          { dt_txt := some "t2", main := none, weather := none, wind := none }] :
        Option (List OWListItem)).getD []) : List OWListItem).length ∧
      ∀ i, i < min 1 (((some [
          { dt_txt := some "t1", main := none, weather := none, wind := none },
          { dt_txt := some "t2", main := none, weather := none, wind := none }] :
        Option (List OWListItem)).getD []) : List OWListItem).length →
        (((((some [
            { dt_txt := some "t1", main := none, weather := none, wind := none },
            { dt_txt := some "t2", main := none, weather := none, wind := none }] :
          Option (List OWListItem)).getD []).take 1).map forecastEntryOfItem))[i]? =
          ((((some [
            { dt_txt := some "t1", main := none, weather := none, wind := none },
            { dt_txt := some "t2", main := none, weather := none, wind := none }] :
          Option (List OWListItem)).getD []))[i]?).map forecastEntryOfItem) := by
  refine ⟨by decide, by decide, by decide, by decide, ?_⟩
  exact C6_forecast_truncation "k" "c" "ow" [("x-api-key", "k")]
    { city := none,
      list := some [
        { dt_txt := some "t1", main := none, weather := none, wind := none },
        { dt_txt := some "t2", main := none, weather := none, wind := none }] }
    1 (by decide) (by decide) (by decide) (by decide)

/-- Claim C7, counterexample: a request for city `a` on an empty store
(so the staleness check decides a refresh), a successful RPC call, and
a failing post-refresh store re-read: the handler answers HTTP 500 —
the store read failure does prevent the successful refresh from being
reported, contradicting the claim.  The 500 message even attributes the
failure to the gRPC call, which succeeded. -/
theorem C7_counterexample :
    weather_history_route (some "a") none none 300 1000 (.ok []) (.ok []) (.ok ()) (.error ()) =
      .errJson 500 "Failed to fetch current weather via gRPC" := by
  decide

/-- Claim C7 (corrected): in the source, the post-refresh re-read sits
inside the same `try` block as the gRPC call, so its failure is caught
by the generic handler and returned as HTTP 500.  Corrected statement:
when the staleness check decides a refresh and the RPC succeeds, a
successful re-read yields the 200 history response, but a failing
re-read yields HTTP 500 (with a message attributing the failure to the
gRPC call). -/
theorem C7_refresh_report (cityRaw limitRaw hoursRaw : Option String) (ttl now : Int)
    (history latestL : List BDoc) (read3 : Except Unit (List BDoc)) (limitO hours : Option Int)
    (hcity : pyStrip (cityRaw.getD "") ≠ "")
    (hlim : parse_int_param (some (limitRaw.getD "50")) (some 50) (some 1) = .ok limitO)
    (hhours : parse_int_param hoursRaw none (some 1) = .ok hours)
    (hneeds : route_needs_refresh latestL now ttl = true) :
    (∀ h2, read3 = .ok h2 →
      weather_history_route cityRaw limitRaw hoursRaw ttl now (.ok history) (.ok latestL)
          (.ok ()) read3 =
        .okJson (pyStrip (cityRaw.getD "")) h2.length hours (limitO.getD 50) h2) ∧
    (read3 = .error () →
      weather_history_route cityRaw limitRaw hoursRaw ttl now (.ok history) (.ok latestL)
          (.ok ()) read3 =
        .errJson 500 "Failed to fetch current weather via gRPC") := by
  constructor
  · intro h2 h3
    simp only [weather_history_route, hlim, hhours, h3]
    rw [if_neg hcity, if_pos hneeds]
  · intro h3
    simp only [weather_history_route, hlim, hhours, h3]
    rw [if_neg hcity, if_pos hneeds]

/-- Claim C7, witness for the corrected statement: a stale store, a
successful RPC, and one concrete outcome of each kind for the re-read
(the instance below uses the failing re-read; the vacuous first
conjunct covers the successful one). -/
theorem C7_refresh_report_witness :
    pyStrip ((some "a" : Option String).getD "") ≠ "" ∧
    parse_int_param (some ((none : Option String).getD "50")) (some 50) (some 1) =
      .ok (some 50) ∧
    parse_int_param (none : Option String) none (some 1) = .ok none ∧
    route_needs_refresh [] 1000 300 = true ∧
    ((∀ h2, (.error () : Except Unit (List BDoc)) = .ok h2 →
      weather_history_route (some "a") none none 300 1000 (.ok []) (.ok [])
          (.ok ()) (.error ()) =
        .okJson (pyStrip ((some "a" : Option String).getD "")) h2.length none
          ((some (50 : Int)).getD 50) h2) ∧
    ((.error () : Except Unit (List BDoc)) = .error () →
      weather_history_route (some "a") none none 300 1000 (.ok []) (.ok [])
          (.ok ()) (.error ()) =
        .errJson 500 "Failed to fetch current weather via gRPC")) :=
  ⟨by decide, by decide, by decide, by decide,
   C7_refresh_report (some "a") none none 300 1000 [] [] (.error ()) (some 50) none
     (by decide) (by decide) (by decide) (by decide)⟩

/-- Claim C8, counterexample: the claim quantifies over every store
state, but `get_latest_weather_record` has no empty-key guard in the
source: a whitespace-only key is normalized to the empty string and
queried as an exact match, so a store containing a record whose
`cache_key` is the empty string is returned rather than no record. -/
theorem C8_counterexample :
    get_latest_weather_record [[("cache_key", BVal.str "")]] " " =
      some [("cache_key", BVal.str "")] := by
  decide

/-- Claim C8 (corrected): the history query returns `[]` for every
empty or whitespace-only city on every store whatsoever (its guard is
in the source), and both queries are total (no error).  The
latest-by-key query, however, has no empty-key guard: it returns no
record only on stores containing no record with an empty `cache_key` —
in particular every store written solely through `save_weather_record`
with the non-empty keys the RPC service derives from validated city
names.  The store hypothesis scopes only over the latest-by-key
conjunct; the history conjunct is unconditional in the store. -/
theorem C8_empty_input_queries (db : List BDoc) (city key : String) (limit : Nat)
    (hours : Option Int) (now : Int) (hcity : pyStrip city = "")
    (hkey : pyLower (pyStrip key) = "") :
    get_weather_history db city limit hours now = [] ∧
    ((∀ d ∈ db, dget d "cache_key" ≠ some (.str "")) →
      get_latest_weather_record db key = none) := by
  constructor
  · simp only [get_weather_history, hcity]
    rw [if_pos (by decide : pyLower "" = "")]
  · intro hdb
    simp only [get_latest_weather_record, hkey]
    have hnil : db.filter (fun d => decide (dget d "cache_key" = some (.str ""))) = [] := by
      rw [List.filter_eq_nil_iff]
      intro d hd
      simpa using hdb d hd
    rw [hnil]
    rfl

/-- Claim C8, witness: a whitespace-only city and key against the very
store that defeats the latest-by-key query — the history query still
returns `[]` on it, unconditionally. -/
theorem C8_empty_input_queries_witness :
    pyStrip " " = "" ∧ pyLower (pyStrip "  ") = "" ∧
    (get_weather_history [[("cache_key", BVal.str "")]] " " 5 none 0 = [] ∧
      ((∀ d ∈ [[("cache_key", BVal.str "")]], dget d "cache_key" ≠ some (.str "")) →
        get_latest_weather_record [[("cache_key", BVal.str "")]] "  " = none)) :=
  ⟨by decide, by decide,
   C8_empty_input_queries [[("cache_key", BVal.str "")]] " " "  " 5 none 0
     (by decide) (by decide)⟩

/-- Claim C9, counterexample: a latest record with the numeric-string
`created_at` value `"100"` at `now = 150`, TTL 300.  The Freshness
Cache converts the string with `float(...)` and reports a fresh hit,
while the Gateway checks `isinstance(created_at, (int, float))`,
rejects the string, and decides a refresh — the two layers disagree on
exactly the records the claim singles out. -/
theorem C9_counterexample :
    route_needs_refresh
        (get_weather_history
          [[("cache_key", BVal.str "a"), ("city", BVal.str "A"),
            ("created_at", BVal.str "100")]] "a" 1 none 150) 150 300 = true ∧
    get_cached_weather_if_fresh
        (.ok (get_latest_weather_record
          [[("cache_key", BVal.str "a"), ("city", BVal.str "A"),
            ("created_at", BVal.str "100")]] "a")) "a" 150 300 =
      .ok (some { city := "A", temperature_celsius := 0, description := "n/a", humidity := 0,
                  wind_speed := 0, timestamp := synthTs 150 }) := by
  constructor
  · decide
  · decide

/-- Claim C9 (corrected): the Gateway staleness decision and the
Freshness Cache verdict agree on every latest record whose `created_at`
is absent, null, or a genuine int/float — and on the no-record case.
The agreement is stated only for non-string `created_at` values:
string-valued `created_at` is exactly where the two layers can diverge,
because the cache runs the value through `float(...)` (accepting
integer, fraction and exponent literal forms) while the gateway
rejects every string via `isinstance(created_at, (int, float))` and
refreshes unconditionally.  Stated on the freshness conditions
(`freshLatest`): for a non-string `created_at`, the gateway refreshes
exactly when the record is not fresh. -/
theorem C9_staleness_agreement (doc : BDoc) (now ttl : Int)
    (h : ∀ s, dget doc "created_at" ≠ some (.str s)) :
    (route_needs_refresh [doc] now ttl = true ↔
      freshLatest (.ok (some doc)) now ttl = none) ∧
    route_needs_refresh [] now ttl = true ∧
    freshLatest (.ok none) now ttl = none := by
  refine ⟨?_, rfl, rfl⟩
  rcases hca : dget doc "created_at" with _ | ca
  · simp [route_needs_refresh, freshLatest, hca]
  rcases ca with t | s | _
  · simp only [route_needs_refresh, freshLatest, hca, pyFloatOf]
    by_cases hage : now - t ≤ ttl
    · rw [if_pos hage]
      simp
      omega
    · rw [if_neg hage]
      simp
      omega
  · exact absurd hca (h s)
  · simp [route_needs_refresh, freshLatest, hca, pyFloatOf]

/-- Claim C9, witness for the corrected statement: a latest record with
a numeric `created_at`, stale by 700 seconds against a 300-second TTL:
both layers decide refresh. -/
theorem C9_staleness_agreement_witness :
    (∀ s, dget [("created_at", BVal.num 0)] "created_at" ≠ some (.str s)) ∧
    ((route_needs_refresh [[("created_at", BVal.num 0)]] 1000 300 = true ↔
      freshLatest (.ok (some [("created_at", BVal.num 0)])) 1000 300 = none) ∧
    route_needs_refresh [] 1000 300 = true ∧
    freshLatest (.ok (none : Option BDoc)) 1000 300 = none) :=
  ⟨fun s hs => by simp [dget] at hs,
   C9_staleness_agreement [("created_at", BVal.num 0)] 1000 300
     (fun s hs => by simp [dget] at hs)⟩

/-- Claim C10 (confirmed): on a fresh cache hit, each of the four
optional record fields that is missing is re-hydrated to its documented
default — temperature 0.0, description n/a, humidity 0, wind speed 0.0
— instead of failing; a record carrying only `created_at` produces the
fully defaulted response, with the fallback city name and a synthesized
timestamp. -/
theorem C10_rehydration_defaults (doc : BDoc) (fb : String) (now ttl t : Int) :
    (dget doc "temperature_celsius" = none → hydrateTemp doc = some 0) ∧
    (dget doc "description" = none → hydrateDesc doc = some "n/a") ∧
    (dget doc "humidity" = none → hydrateHum doc = some 0) ∧
    (dget doc "wind_speed" = none → hydrateWind doc = some 0) ∧
    (dget doc "created_at" = some (.num t) → now - t ≤ ttl →
      dget doc "temperature_celsius" = none → dget doc "description" = none →
      dget doc "humidity" = none → dget doc "wind_speed" = none →
      dget doc "city" = none → dget doc "timestamp" = none →
      get_cached_weather_if_fresh (.ok (some doc)) fb now ttl =
        .ok (some { city := fb, temperature_celsius := 0, description := "n/a", humidity := 0,
                    wind_speed := 0, timestamp := synthTs now })) := by
  refine ⟨?_, ?_, ?_, ?_, ?_⟩
  · intro h1
    simp [hydrateTemp, h1, pyFloatOf]
  · intro h2
    simp [hydrateDesc, h2]
  · intro h3
    simp [hydrateHum, h3, pyIntOf]
  · intro h4
    simp [hydrateWind, h4, pyFloatOf]
  · intro hca hfresh h1 h2 h3 h4 h5 h6
    simp only [get_cached_weather_if_fresh, hca, pyFloatOf]
    rw [if_neg (by omega : ¬ now - t > ttl)]
    simp [rehydrate, hydrateCity, hydrateTemp, hydrateDesc, hydrateHum, hydrateWind,
      hydrateTs, h1, h2, h3, h4, h5, h6, pyFloatOf, pyIntOf]

/-- Claim C10, witness: a fresh record carrying only `created_at`
re-hydrates into the fully defaulted response. -/
theorem C10_rehydration_defaults_witness :
    dget [("created_at", BVal.num 100)] "created_at" = some (.num 100) ∧
    (150 : Int) - 100 ≤ 300 ∧
    dget [("created_at", BVal.num 100)] "temperature_celsius" = none ∧
    dget [("created_at", BVal.num 100)] "description" = none ∧
    dget [("created_at", BVal.num 100)] "humidity" = none ∧
    dget [("created_at", BVal.num 100)] "wind_speed" = none ∧
    dget [("created_at", BVal.num 100)] "city" = none ∧
    dget [("created_at", BVal.num 100)] "timestamp" = none ∧
    get_cached_weather_if_fresh (.ok (some [("created_at", BVal.num 100)])) "x" 150 300 =
      .ok (some { city := "x", temperature_celsius := 0, description := "n/a", humidity := 0,
                  wind_speed := 0, timestamp := synthTs 150 }) :=
  ⟨by decide, by omega, by decide, by decide, by decide, by decide, by decide, by decide,
   (C10_rehydration_defaults [("created_at", BVal.num 100)] "x" 150 300 100).2.2.2.2
     (by decide) (by omega) (by decide) (by decide) (by decide) (by decide) (by decide)
     (by decide)⟩
